import Mathlib

/-!
Verification of the fit-track-goals-app authentication and goal-management
core against its specification.  The JavaScript source is shallowly embedded:
JS strings become `String` (operated on through their character lists),
thrown JS error objects become an explicit `JsError` value, randomness
(bcrypt salts, fresh ids, clocks) becomes explicit parameters, and the
MongoDB/mongoose persistence layer becomes pure state passing over lists of
records.
-/

namespace FitTrack

/-- Characters treated as whitespace by the embedding.  Models the common
(ASCII) part of the JavaScript whitespace class used by `String.prototype.trim`
and by the regex class `\s`. -/
def isJsSpace (c : Char) : Bool :=
  c = ' ' || c = '\t' || c = '\n' || c = '\r' || c = '\x0b' || c = '\x0c'

/-- Character-list core of `String.prototype.trim`: drop whitespace from both
ends. -/
def jsTrimList (cs : List Char) : List Char :=
  ((cs.dropWhile isJsSpace).reverse.dropWhile isJsSpace).reverse

/-- Models `str.trim()` from JavaScript. -/
def jsTrim (s : String) : String :=
  ⟨jsTrimList s.data⟩

/-- Models `str.toLowerCase()` (ASCII range; the repository only manipulates
ASCII identifiers and emails). -/
def jsToLower (s : String) : String :=
  ⟨s.data.map Char.toLower⟩

/-- Character-list core of the global regex replacement
`replace(/<[^>]*>?/gm, '')` in `sanitizeString` (src/src/utils/helpers.js,
lines 143-157): on seeing `<` the scanner discards characters up to and
including the next `>` (or the end of the string), otherwise it keeps the
character.  The flag is true while inside a tag. -/
def stripTagsAux : Bool → List Char → List Char
  | _, [] => []
  | false, c :: rest =>
      if c = '<' then stripTagsAux true rest else c :: stripTagsAux false rest
  | true, c :: rest =>
      if c = '>' then stripTagsAux false rest else stripTagsAux true rest

/-- `sanitizeString` from src/src/utils/helpers.js (lines 143-157):
`str.trim().replace(/<[^>]*>?/gm, '')`.  The null/non-string guards of the JS
function are outside the embedding because Lean strings are total. -/
def sanitizeString (s : String) : String :=
  ⟨stripTagsAux false (jsTrimList s.data)⟩

/-- True when the character list contains neither `@` nor whitespace: the
character class `[^@\s]` of the email regexes. -/
def noAtWs (cs : List Char) : Bool :=
  cs.all (fun c => c ≠ '@' && !(isJsSpace c))

/-- JavaScript `String.prototype.split` with a single-character separator:
splits at every occurrence, keeping empty chunks (so `"a  b".split(' ')` is
`["a", "", "b"]` and `"".split(' ')` is `[""]`). -/
def jsSplitChar (sep : Char) : List Char → List (List Char)
  | [] => [[]]
  | c :: rest =>
      let r := jsSplitChar sep rest
      if c = sep then [] :: r
      else
        match r with
        | h :: t => (c :: h) :: t
        | [] => [[c]]

/-- The shape test of the regex `^[^@\s]+@[^@\s]+\.[^@\s]+$` shared (up to
character-class ordering) by `isValidEmail` in helpers.js and the `User`
schema email validator: exactly one `@`, a nonempty whitespace-free local
part, and a nonempty whitespace-free domain containing a dot that has at
least one character on each side. -/
def emailShape (cs : List Char) : Bool :=
  match jsSplitChar '@' cs with
  | [l, d] =>
      !l.isEmpty && noAtWs l && !d.isEmpty && noAtWs d &&
        ((d.drop 1).dropLast.any (fun c => c = '.'))
  | _ => false

/-- `isValidEmail` from src/src/utils/helpers.js (lines 18-33): empty or
all-whitespace strings are rejected, otherwise the email regex decides. -/
def isValidEmail (s : String) : Bool :=
  if jsTrimList s.data = [] then false else emailShape s.data

/-- A thrown JavaScript value as observed by the catch boundaries of this
repository.  The object literals thrown by the services populate `message`,
`code` and `statusText`; library errors (mongoose, jsonwebtoken, TypeError)
carry a `message` and an `errName` but usually no `code`/`statusText`.
`code = none` models a missing (undefined) numeric field. -/
structure JsError where
  message : String
  code : Option Nat
  statusText : Option String
  errName : String
deriving DecidableEq, Repr

/-- The JS truthiness test `error.message && error.code` used by every
service-level catch to decide whether a thrown value is already formatted.
An empty message and the number `0` are falsy in JS. -/
def alreadyFormatted (e : JsError) : Bool :=
  e.message ≠ "" && (match e.code with | some c => c ≠ 0 | none => false)

/-- A boundary outcome is structured when it either succeeded or failed with
an error carrying both a numeric `code` and a `statusText` (the propagation
policy of spec section 7). -/
def isStructuredError (e : JsError) : Bool :=
  e.code.isSome && e.statusText.isSome

/-- Result of calling a service function: the successful value or the thrown
JS value (structured object literal or raw library exception). -/
inductive Outcome (α : Type) where
  | ok (a : α)
  | err (e : JsError)
deriving DecidableEq, Repr

/-- The TypeError raised when an `undefined` import is called as a function. -/
def typeErrorNotAFunction (fname : String) : JsError :=
  ⟨fname ++ " is not a function", none, none, "TypeError"⟩

/-- The export list of src/src/utils/helpers.js (line 194).  The module
defines and exports exactly these five names. -/
def helpersExports : List String :=
  ["isValidEmail", "formatDate", "truncateString", "sanitizeString",
    "generateRandomString"]

/-- The binding `isValidObjectId` imported from helpers.js by
goalService.js (line 6), goalController.js (line 4) and authMiddleware.js.
helpers.js never defines or exports such a function, so under CommonJS
interop the imported binding is `undefined`; calling it raises a TypeError.
`none` records the missing definition. -/
def isValidObjectIdImport : Option (String → Bool) :=
  none

/-- A bcrypt value flowing through the system: either an ordinary string or
the output of `bcrypt.hash` with a given random salt over some input.  A hash
string is never equal to a raw string (bcrypt output has the fixed
`2b` modular-crypt format), which the two constructors capture. -/
inductive BcryptStr where
  | raw (s : String)
  | hash (salt : Nat) (input : BcryptStr)
deriving DecidableEq, Repr

/-- `bcrypt.compare(plaintext, stored)`: recompute the digest of `plaintext`
with the salt embedded in `stored` and compare; true exactly when `stored` is
a hash whose preimage is `plaintext`.  A malformed (non-hash) stored value
fails closed. -/
def bcryptCompare (plaintext : BcryptStr) (stored : BcryptStr) : Bool :=
  match stored with
  | .hash _ input => input == plaintext
  | .raw _ => false

/-- A persisted identity record (api/models/User.js, userSchema lines
252-292). -/
structure StoredUser where
  id : String
  username : String
  email : String
  password : BcryptStr
  createdAt : Int
  updatedAt : Int
deriving DecidableEq, Repr

/-- The view of a user returned by `register` (authService.js lines 92-99):
exactly id, username, email, createdAt, updatedAt — the type has no password
field. -/
structure PublicUser where
  id : String
  username : String
  email : String
  createdAt : Int
  updatedAt : Int
deriving DecidableEq, Repr

/-- The username schema validator of User.js: `required`, `minlength: 3`,
`maxlength: 50` and the regex `^[a-zA-Z0-9_]+$`. -/
def usernameSchemaOk (s : String) : Bool :=
  !s.data.isEmpty && s.data.all (fun c => c.isAlphanum || c = '_') &&
    3 ≤ s.data.length && s.data.length ≤ 50

/-- The environment of one `register` call: the two random bcrypt salts (the
one drawn in authService.register line 79 and the one drawn in the
userSchema.pre save hook line 300), the object id the store assigns, and the
clock value used for the timestamps. -/
structure RegEnv where
  salt1 : Nat
  salt2 : Nat
  newId : String
  now : Int
deriving Repr

/-- The document handed to `new User(...)` by authService.register. -/
structure NewUserDoc where
  username : String
  email : String
  password : BcryptStr

/-- `newUser.save()` as the mongoose/MongoDB collaborators execute it for the
User model: the pre-save hook re-hashes the (already hashed) password field
(User.js lines 295-307), the schema setters normalize username (`trim`) and
email (`lowercase`, `trim`), schema validation runs, and finally the unique
indexes on email and username reject duplicates with the driver error E11000
whose numeric `code` field is 11000.  On any failure the stored list is
unchanged. -/
def userSave (salt2 : Nat) (newId : String) (now : Int)
    (db : List StoredUser) (doc : NewUserDoc) :
    Except JsError StoredUser × List StoredUser :=
  let pw := BcryptStr.hash salt2 doc.password
  let uname := jsTrim doc.username
  let mail := jsTrim (jsToLower doc.email)
  if ¬ (usernameSchemaOk uname = true) then
    (.error ⟨"User validation failed: username", none, none, "ValidationError"⟩, db)
  else if ¬ (mail ≠ "" ∧ emailShape mail.data = true) then
    (.error ⟨"User validation failed: email", none, none, "ValidationError"⟩, db)
  else if (db.find? (fun u => u.email == mail)).isSome then
    (.error ⟨"E11000 duplicate key error collection: users index: email_1",
      some 11000, none, "MongoServerError"⟩, db)
  else if (db.find? (fun u => u.username == uname)).isSome then
    (.error ⟨"E11000 duplicate key error collection: users index: username_1",
      some 11000, none, "MongoServerError"⟩, db)
  else
    let saved : StoredUser := ⟨newId, uname, mail, pw, now, now⟩
    (.ok saved, db ++ [saved])

/-- The catch boundary of `register` (authService.js lines 102-116): a thrown
value passing the `error.message && error.code` test is re-thrown unchanged,
anything else is wrapped as a 500 Internal Server Error keeping a truthy
message. -/
def registerCatch (e : JsError) : JsError :=
  if alreadyFormatted e then e
  else ⟨(if e.message ≠ "" then e.message else "Failed to register user"),
    some 500, some "Internal Server Error", ""⟩

/-- `register` from api/services/authService.js (lines 22-117): sanitize the
three inputs, validate them in order, pre-check the email for duplicates with
`User.findOne` on the sanitized (not lowercased) email, hash the password
with bcrypt, and save the new user.  Returns the outcome together with the
resulting user store. -/
def register (env : RegEnv) (db : List StoredUser)
    (username email password : String) :
    Outcome PublicUser × List StoredUser :=
  let su := sanitizeString username
  let se := sanitizeString email
  let sp := sanitizeString password
  if su = "" ∨ jsTrim su = "" then
    (.err ⟨"Username is required", some 400, some "Bad Request", ""⟩, db)
  else if se = "" ∨ jsTrim se = "" then
    (.err ⟨"Email is required", some 400, some "Bad Request", ""⟩, db)
  else if ¬ (isValidEmail se = true) then
    (.err ⟨"Invalid email format", some 400, some "Bad Request", ""⟩, db)
  else if sp = "" ∨ sp.length < 8 then
    (.err ⟨"Password must be at least 8 characters long", some 400,
      some "Bad Request", ""⟩, db)
  else
    if (db.find? (fun u => u.email == se)).isSome then
      (.err (registerCatch ⟨"User with this email already exists", some 400,
        some "Bad Request", ""⟩), db)
    else
      let hashedPassword := BcryptStr.hash env.salt1 (.raw sp)
      match userSave env.salt2 env.newId env.now db ⟨su, se, hashedPassword⟩ with
      | (.ok saved, db') =>
          (.ok ⟨saved.id, saved.username, saved.email, saved.createdAt,
            saved.updatedAt⟩, db')
      | (.error e, db') => (.err (registerCatch e), db')

/-- `findByCredentials` from api/models/User.js (lines 310-327): look the
user up by email (selecting the password hash) and verify the password with
`bcrypt.compare`; `null` (here `none`) both when no record matches the email
and when the password does not match. -/
def findByCredentials (db : List StoredUser) (email password : String) :
    Option StoredUser :=
  match db.find? (fun u => u.email == email) with
  | none => none
  | some u => if bcryptCompare (.raw password) u.password then some u else none

/-- The claim set `jwt.sign` embeds on login (authService.js lines 175-179).
Signing is modeled by carrying the payload itself; verification of such a
token yields exactly these claims. -/
structure TokenClaims where
  userId : String
  email : String
deriving DecidableEq, Repr

/-- The success value of `login` (authService.js lines 182-192). -/
structure LoginOk where
  message : String
  token : TokenClaims
  user : PublicUser
deriving DecidableEq, Repr

/-- `login` from api/services/authService.js (lines 128-206): sanitize and
validate, call `findByCredentials`, throw the single invalid-credentials
error when it returns null, otherwise sign a token over the user id and email
and return it with the public user view.  The thrown object passes the
`error.message && error.code` test of the catch boundary (line 196) and is
re-thrown unchanged. -/
def login (db : List StoredUser) (email password : String) : Outcome LoginOk :=
  let se := sanitizeString email
  let sp := sanitizeString password
  if se = "" ∨ jsTrim se = "" then
    .err ⟨"Email is required", some 400, some "Bad Request", ""⟩
  else if ¬ (isValidEmail se = true) then
    .err ⟨"Invalid email format", some 400, some "Bad Request", ""⟩
  else if sp = "" ∨ sp.length < 8 then
    .err ⟨"Password must be at least 8 characters long", some 400,
      some "Bad Request", ""⟩
  else
    match findByCredentials db se sp with
    | none => .err ⟨"Invalid login credentials", some 404, some "Not Found", ""⟩
    | some u =>
        .ok ⟨"Login successful", ⟨u.id, u.email⟩,
          ⟨u.id, u.username, u.email, u.createdAt, u.updatedAt⟩⟩

/-- A persisted goal record (api/models/Goal.js, goalSchema lines 190-228).
`targetDate` is the parsed timestamp; `progress` the stored number. -/
structure StoredGoal where
  id : String
  userId : String
  title : String
  description : String
  targetDate : Int
  progress : Int
deriving DecidableEq, Repr

/-- The catch boundary shared by the goal service operations (goalService.js
lines 126-139, 195-208, 324-337, 396-408): re-throw already formatted
errors, wrap anything else as a 500 with the operation's fallback message. -/
def goalCatch (fallback : String) (e : JsError) : JsError :=
  if alreadyFormatted e then e
  else ⟨fallback, some 500, some "Internal Server Error", ""⟩

/-- `getGoal` from api/services/goalService.js (lines 151-209).  The two id
validations run before the try block, and each calls the undefined
`isValidObjectId` import on a truthy id, so the raw TypeError escapes the
function without reaching the catch boundary.  The remaining translation (the
owner-scoped `Goal.findOne` with both `_id` and `userId` in the filter) sits
under the impossible `some` branch of the import. -/
def getGoal (users : List StoredUser) (goals : List StoredGoal)
    (goalId userId : String) : Outcome StoredGoal :=
  if goalId = "" then
    .err ⟨"Invalid goalId provided", some 400, some "Bad Request", ""⟩
  else
    match isValidObjectIdImport with
    | none => .err (typeErrorNotAFunction "isValidObjectId")
    | some isValidObjectId =>
        if ¬ (isValidObjectId goalId = true) then
          .err ⟨"Invalid goalId provided", some 400, some "Bad Request", ""⟩
        else if userId = "" ∨ ¬ (isValidObjectId userId = true) then
          .err ⟨"Invalid userId provided", some 400, some "Bad Request", ""⟩
        else if (users.find? (fun u => u.id == userId)).isNone then
          .err (goalCatch "Failed to retrieve goal"
            ⟨"User not found", some 404, some "Not Found", ""⟩)
        else
          match goals.find? (fun g => g.id == goalId && g.userId == userId) with
          | none =>
              .err (goalCatch "Failed to retrieve goal"
                ⟨"Goal not found", some 404, some "Not Found", ""⟩)
          | some goal => .ok goal

/-- The field-update block of `updateGoal` (goalService.js lines 318-321):
each field is written only when the incoming value is truthy, so an empty
sanitized title or description, an absent target date, and a progress of `0`
all leave the stored field unchanged. -/
def applyGoalUpdates (g : StoredGoal) (sanitizedTitle sanitizedDescription : String)
    (targetDate : Option Int) (progress : Option Int) : StoredGoal :=
  { g with
    title := if sanitizedTitle ≠ "" then sanitizedTitle else g.title
    description :=
      if sanitizedDescription ≠ "" then sanitizedDescription else g.description
    targetDate := match targetDate with | some t => t | none => g.targetDate
    progress :=
      match progress with
      | some p => if p ≠ 0 then p else g.progress
      | none => g.progress }

/-- `updateGoal` from api/services/goalService.js (lines 225-338).  Dates are
embedded as parsed timestamps (`none` = absent), `progress` as `Option Int`
(`none` = not a number).  As in `getGoal`, the pre-try validation calls the
undefined `isValidObjectId` on any truthy goal id, so the raw TypeError
escapes; the remaining translation (owner-scoped lookup, truthy-only field
updates, save) is under the impossible `some` branch. -/
def updateGoal (now : Int) (users : List StoredUser) (goals : List StoredGoal)
    (goalId userId title description : String)
    (targetDate : Option Int) (progress : Option Int) :
    Outcome StoredGoal × List StoredGoal :=
  let sanitizedTitle := sanitizeString title
  let sanitizedDescription := sanitizeString description
  if goalId = "" then
    (.err ⟨"Invalid goalId provided", some 400, some "Bad Request", ""⟩, goals)
  else
    match isValidObjectIdImport with
    | none => (.err (typeErrorNotAFunction "isValidObjectId"), goals)
    | some isValidObjectId =>
        if ¬ (isValidObjectId goalId = true) then
          (.err ⟨"Invalid goalId provided", some 400, some "Bad Request", ""⟩,
            goals)
        else if userId = "" ∨ ¬ (isValidObjectId userId = true) then
          (.err ⟨"Invalid userId provided", some 400, some "Bad Request", ""⟩,
            goals)
        else if sanitizedTitle ≠ "" ∧ 100 < sanitizedTitle.length then
          (.err ⟨"Goal title must be less than 100 characters long", some 400,
            some "Bad Request", ""⟩, goals)
        else if sanitizedDescription ≠ "" ∧ 500 < sanitizedDescription.length then
          (.err ⟨"Goal description must be less than 500 characters long",
            some 400, some "Bad Request", ""⟩, goals)
        else if (match targetDate with | some t => decide (t ≤ now) | none => false) = true then
          (.err ⟨"Target date must be in the future", some 400,
            some "Bad Request", ""⟩, goals)
        else if (match progress with
            | none => true
            | some p => decide (p < 0) || decide (100 < p)) = true then
          (.err ⟨"Progress must be a number between 0 and 100", some 400,
            some "Bad Request", ""⟩, goals)
        else if (users.find? (fun u => u.id == userId)).isNone then
          (.err (goalCatch "Failed to update goal"
            ⟨"User not found", some 404, some "Not Found", ""⟩), goals)
        else
          match goals.find? (fun g => g.id == goalId && g.userId == userId) with
          | none =>
              (.err (goalCatch "Failed to update goal"
                ⟨"Goal not found", some 404, some "Not Found", ""⟩), goals)
          | some goal =>
              let updated := applyGoalUpdates goal sanitizedTitle
                sanitizedDescription targetDate progress
              (.ok updated,
                goals.map (fun g => if g.id == goal.id then updated else g))

/-- `deleteGoal` from api/services/goalService.js (lines 350-409).  Same
pre-try validation structure: any truthy goal id reaches the undefined
`isValidObjectId` import and the raw TypeError escapes.  The deletion under
the impossible branch filters by both the goal id and the owner id. -/
def deleteGoal (users : List StoredUser) (goals : List StoredGoal)
    (goalId userId : String) : Outcome String × List StoredGoal :=
  if goalId = "" then
    (.err ⟨"Invalid goalId provided", some 400, some "Bad Request", ""⟩, goals)
  else
    match isValidObjectIdImport with
    | none => (.err (typeErrorNotAFunction "isValidObjectId"), goals)
    | some isValidObjectId =>
        if ¬ (isValidObjectId goalId = true) then
          (.err ⟨"Invalid goalId provided", some 400, some "Bad Request", ""⟩,
            goals)
        else if userId = "" ∨ ¬ (isValidObjectId userId = true) then
          (.err ⟨"Invalid userId provided", some 400, some "Bad Request", ""⟩,
            goals)
        else if (users.find? (fun u => u.id == userId)).isNone then
          (.err (goalCatch "Failed to delete goal"
            ⟨"User not found", some 404, some "Not Found", ""⟩), goals)
        else
          match goals.find? (fun g => g.id == goalId && g.userId == userId) with
          | none =>
              (.err (goalCatch "Failed to delete goal"
                ⟨"Goal not found", some 404, some "Not Found", ""⟩), goals)
          | some _ =>
              (.ok "Goal deleted successfully",
                goals.filter (fun g => ¬ (g.id == goalId && g.userId == userId)))

/-- The payload a JWT decodes to: the `userId` claim (possibly absent), the
email claim and the embedded expiry. -/
structure JwtPayload where
  userId : Option String
  email : String
  exp : Nat
deriving DecidableEq, Repr

/-- `jwt.verify(token, secret)` as the jsonwebtoken collaborator behaves: a
token whose signature does not verify against the secret decodes to nothing
and raises JsonWebTokenError, a well-signed token whose embedded expiry is
not in the future of the clock raises TokenExpiredError, otherwise the
decoded payload is returned.  `decode` is the signature-checking decoder
determined by the secret. -/
def jwtVerify (decode : String → Option JwtPayload) (now : Nat) (token : String) :
    Except JsError JwtPayload :=
  match decode token with
  | none => .error ⟨"invalid signature", none, none, "JsonWebTokenError"⟩
  | some p =>
      if p.exp ≤ now then
        .error ⟨"jwt expired", none, none, "TokenExpiredError"⟩
      else .ok p

/-- The catch block of `authenticate` (authMiddleware.js lines 162-177): a
TokenExpiredError becomes the fixed token-expired 401, every other caught
error becomes a 401 carrying its truthy message (or the invalid-token
fallback). -/
def authCatch (e : JsError) : JsError :=
  if e.errName = "TokenExpiredError" then
    ⟨"Authentication failed: Token Expired", some 401, some "Unauthorized", ""⟩
  else
    ⟨(if e.message ≠ "" then e.message else "Authentication failed: Invalid token"),
      some 401, some "Unauthorized", ""⟩

/-- The request-level result of the authorization gate: a 401 JSON response,
or proceeding to the downstream handler with the resolved user attached to
the request. -/
inductive AuthResult where
  | reject (resp : JsError)
  | proceed (userId : String) (email : String)
deriving DecidableEq, Repr

/-- `authenticate` from api/middlewares/authMiddleware.js (lines 81-178):
header checks, `Bearer` format check via `split(' ')`, empty-token check,
JWT verification, payload check, userId sanitization and format check — the
latter calls the undefined `isValidObjectId` import inside the try block, so
the TypeError is caught and turned into a 401 carrying its message — then
the store lookup and, on full success, attaching the user and calling the
downstream handler. -/
def authenticate (decode : String → Option JwtPayload) (now : Nat)
    (users : List StoredUser) (authHeader : Option String) : AuthResult :=
  match authHeader with
  | none =>
      .reject ⟨"Authentication failed: No token provided", some 401,
        some "Unauthorized", ""⟩
  | some header =>
      match (jsSplitChar ' ' header.data).map (fun cs => String.mk cs) with
      | [bearer, token] =>
          if ¬ (bearer = "Bearer") then
            .reject ⟨"Authentication failed: Invalid token format", some 401,
              some "Unauthorized", ""⟩
          else if token = "" ∨ jsTrim token = "" then
            .reject ⟨"Authentication failed: Token is empty", some 401,
              some "Unauthorized", ""⟩
          else
            match jwtVerify decode now token with
            | .error e => .reject (authCatch e)
            | .ok decoded =>
                match decoded.userId with
                | none =>
                    .reject ⟨"Authentication failed: Invalid token payload",
                      some 401, some "Unauthorized", ""⟩
                | some uid =>
                    if uid = "" then
                      .reject ⟨"Authentication failed: Invalid token payload",
                        some 401, some "Unauthorized", ""⟩
                    else
                      let userId := sanitizeString uid
                      if userId = "" then
                        .reject
                          ⟨"Authentication failed: Invalid userId format in token payload",
                            some 401, some "Unauthorized", ""⟩
                      else
                        match isValidObjectIdImport with
                        | none =>
                            .reject (authCatch
                              (typeErrorNotAFunction "isValidObjectId"))
                        | some isValidObjectId =>
                            if ¬ (isValidObjectId userId = true) then
                              .reject
                                ⟨"Authentication failed: Invalid userId format in token payload",
                                  some 401, some "Unauthorized", ""⟩
                            else
                              match users.find? (fun u => u.id == userId) with
                              | none =>
                                  .reject ⟨"Authentication failed: User not found",
                                    some 401, some "Unauthorized", ""⟩
                              | some user => .proceed user.id user.email
      | _ =>
          .reject ⟨"Authentication failed: Invalid token format", some 401,
            some "Unauthorized", ""⟩

/-- A user fixture: the identity that `register ⟨1, 2, "u1", 100⟩` persists for
alice (note the doubly hashed password produced by the service-level
`bcrypt.hash` followed by the pre-save hook). -/
def aliceStored : StoredUser :=
  ⟨"u1", "alice01", "a@b.com",
    BcryptStr.hash 2 (BcryptStr.hash 1 (BcryptStr.raw "longpass1")), 100, 100⟩

/-- A second user fixture owning the goal fixture. -/
def bobStored : StoredUser :=
  ⟨"u2", "bob_01", "b@b.com",
    BcryptStr.hash 4 (BcryptStr.hash 3 (BcryptStr.raw "longpass2")), 100, 100⟩

/-- A goal fixture owned by the second user. -/
def bobGoal : StoredGoal :=
  ⟨"g1", "u2", "Run 5k", "train for the race", 2000, 10⟩

end FitTrack

namespace FitTrack

theorem jsTrim_empty : jsTrim "" = "" := rfl

example : sanitizeString "  <p>Test String</p>  " = "Test String" := by decide

example : sanitizeString " A@B.Com " = "A@B.Com" := by decide

example : isValidEmail "test@example.com" = true := by decide

example : isValidEmail "invalid-email" = false := by decide

example : isValidEmail "A@b.com" = true := by decide

example : jsSplitChar ' ' "Bearer tok".data = ["Bearer".data, "tok".data] := by decide

theorem mk_data (s : String) : String.mk s.data = s := rfl

theorem mk_eq_empty_iff (l : List Char) : String.mk l = "" ↔ l = [] := by
  constructor
  · intro h
    have h2 := congrArg String.data h
    simpa using h2
  · intro h
    subst h
    rfl

theorem isValidEmail_trim_ne (s : String) (h : isValidEmail s = true) :
    jsTrimList s.data ≠ [] := by
  intro hc
  simp [isValidEmail, hc] at h

theorem valid_email_not_blank (se : String) (h : isValidEmail se = true) :
    ¬ (se = "" ∨ jsTrim se = "") := by
  have hne : jsTrimList se.data ≠ [] := isValidEmail_trim_ne se h
  rintro (rfl | htrim)
  · exact hne rfl
  · exact hne ((mk_eq_empty_iff _).mp htrim)

/-- C1: for an identity created by `register` with valid inputs, a subsequent
`login` with the same correct password is claimed to succeed.  Evaluating the
embedding shows otherwise: registration succeeds and persists the password
hashed twice (once by authService.register, once more by the userSchema
pre-save hook), so `findByCredentials` compares the plaintext against a hash
of a hash and `login` fails with the InvalidCredentials error. -/
theorem register_then_login_fails_invalid_credentials :
    register ⟨1, 2, "u1", 100⟩ [] "alice01" "a@b.com" "longpass1" =
        (Outcome.ok ⟨"u1", "alice01", "a@b.com", 100, 100⟩, [aliceStored]) ∧
      aliceStored.password =
        BcryptStr.hash 2 (BcryptStr.hash 1 (BcryptStr.raw "longpass1")) ∧
      login [aliceStored] "a@b.com" "longpass1" =
        Outcome.err ⟨"Invalid login credentials", some 404, some "Not Found", ""⟩ := by
  refine ⟨by decide, rfl, by decide⟩

/-- C2: the propagation policy claims every boundary function returns either
a successful value or a structured error carrying message, code and
statusText, in particular on the goal-operation paths calling
`isValidObjectId`.  The helpers module does not export that name, the import
is undefined, and the goal service calls it before its try block: the raw
TypeError escapes getGoal unstructured, violating the policy. -/
theorem goal_service_raw_type_error_escapes :
    helpersExports.contains "isValidObjectId" = false ∧
      getGoal [] [] "g42" "u42" =
        Outcome.err (typeErrorNotAFunction "isValidObjectId") ∧
      isStructuredError (typeErrorNotAFunction "isValidObjectId") = false := by
  refine ⟨rfl, by decide, rfl⟩

/-- C4: the authorization gate is claimed to resolve an unknown identity id
to the user-not-found 401 and, on full success, to attach the identity and
invoke the handler.  In the code the userId-format check inside the try block
calls the undefined `isValidObjectId`, so every request carrying a
well-formed, well-signed, unexpired token is rejected 401 with the TypeError
message — both when the identity is absent from the store and when it is
present — and the downstream handler can never execute. -/
theorem auth_gate_never_reaches_user_lookup :
    authenticate
        (fun t => if t = "aaa.bbb.ccc" then some ⟨some "u1", "a@b.com", 1000⟩ else none)
        0 [] (some "Bearer aaa.bbb.ccc") =
      AuthResult.reject
        ⟨"isValidObjectId is not a function", some 401, some "Unauthorized", ""⟩ ∧
    authenticate
        (fun t => if t = "aaa.bbb.ccc" then some ⟨some "u1", "a@b.com", 1000⟩ else none)
        0 [aliceStored] (some "Bearer aaa.bbb.ccc") =
      AuthResult.reject
        ⟨"isValidObjectId is not a function", some 401, some "Unauthorized", ""⟩ := by
  refine ⟨by decide, by decide⟩

/-- C5: a goal operation invoked by user u1 on a goal owned by u2 is claimed
to fail with the structured 404 goal-not-found error.  Because the goal
service's id validation calls the undefined `isValidObjectId` before its try
block, all three operations instead throw the raw TypeError and never reach
the (owner-scoped) lookup; the goal store is left unchanged. -/
theorem goal_ops_type_error_instead_of_owner_scoped_404 :
    getGoal [aliceStored, bobStored] [bobGoal] "g1" "u1" =
        Outcome.err (typeErrorNotAFunction "isValidObjectId") ∧
      updateGoal 0 [aliceStored, bobStored] [bobGoal] "g1" "u1" "New title" ""
          (some 3000) (some 50) =
        (Outcome.err (typeErrorNotAFunction "isValidObjectId"), [bobGoal]) ∧
      deleteGoal [aliceStored, bobStored] [bobGoal] "g1" "u1" =
        (Outcome.err (typeErrorNotAFunction "isValidObjectId"), [bobGoal]) := by
  refine ⟨by decide, by decide, by decide⟩

/-- C9: updateGoal with progress 0 is claimed to return success while the
falsy check drops the reset.  In the code the call never gets that far: the
goal-id validation calls the undefined `isValidObjectId` and the operation
throws the raw TypeError even for the goal's own owner, so no success is ever
returned. -/
theorem update_goal_progress_zero_type_error :
    updateGoal 0 [bobStored] [bobGoal] "g1" "u2" "" "" none (some 0) =
      (Outcome.err (typeErrorNotAFunction "isValidObjectId"), [bobGoal]) := by
  decide

/-- The truthy-only field-update block that C9 describes: had the update been
reached, a progress of 0 (and empty/absent title, description, targetDate)
would indeed leave every stored field unchanged. -/
theorem applyGoalUpdates_progress_zero_is_noop (g : StoredGoal) :
    applyGoalUpdates g "" "" none (some 0) = g := by
  simp [applyGoalUpdates]

/-- C10: a registration email differing only in case from a stored record's
email slips past the duplicate pre-check (findOne with the sanitized,
non-lowercased email), is rejected by the store's unique index on the
lowercased email, and the driver error — message plus numeric code 11000 —
passes the already-formatted test of register's catch and is propagated
verbatim instead of being mapped to Conflict 400 or Internal 500. -/
theorem register_mixed_case_duplicate_propagates_driver_error :
    ([aliceStored].find? (fun u => u.email == sanitizeString "A@b.com")) = none ∧
      register ⟨3, 4, "u9", 200⟩ [aliceStored] "bob_01" "A@b.com" "longpass2" =
        (Outcome.err ⟨"E11000 duplicate key error collection: users index: email_1",
          some 11000, none, "MongoServerError"⟩, [aliceStored]) := by
  refine ⟨by decide, by decide⟩

/-- C3: any two validated login attempts, one with an email absent from the
store and one with a stored email but a non-matching password, fail with the
identical structured error: kind InvalidCredentials, message
Invalid login credentials, code 404 Not Found — the two causes are
indistinguishable to the caller. -/
theorem login_unknown_email_wrong_password_indistinguishable
    (db : List StoredUser) (e1 p1 e2 p2 : String) (u : StoredUser)
    (hv1 : isValidEmail (sanitizeString e1) = true)
    (hp1 : ¬ (sanitizeString p1 = "" ∨ (sanitizeString p1).length < 8))
    (hv2 : isValidEmail (sanitizeString e2) = true)
    (hp2 : ¬ (sanitizeString p2 = "" ∨ (sanitizeString p2).length < 8))
    (hmiss : db.find? (fun x => x.email == sanitizeString e1) = none)
    (hhit : db.find? (fun x => x.email == sanitizeString e2) = some u)
    (hpw : bcryptCompare (.raw (sanitizeString p2)) u.password = false) :
    login db e1 p1 =
        Outcome.err ⟨"Invalid login credentials", some 404, some "Not Found", ""⟩ ∧
      login db e2 p2 =
        Outcome.err ⟨"Invalid login credentials", some 404, some "Not Found", ""⟩ := by
  have h1 := valid_email_not_blank _ hv1
  have h2 := valid_email_not_blank _ hv2
  constructor
  · simp only [login, findByCredentials, if_neg h1, hv1, not_true_eq_false,
      if_neg hp1, hmiss, if_false]
  · simp only [login, findByCredentials, if_neg h2, hv2, not_true_eq_false,
      if_neg hp2, hhit, hpw, if_false]
    simp

/-- C3 witness: a concrete store where the unknown-email attempt and the
wrong-password attempt both yield the single invalid-credentials error. -/
theorem login_indistinguishable_witness :
    isValidEmail (sanitizeString "x@y.com") = true ∧
      isValidEmail (sanitizeString "a@b.com") = true ∧
      [aliceStored].find? (fun x => x.email == sanitizeString "x@y.com") = none ∧
      [aliceStored].find? (fun x => x.email == sanitizeString "a@b.com") =
        some aliceStored ∧
      bcryptCompare (.raw (sanitizeString "wrongpass9")) aliceStored.password = false ∧
      login [aliceStored] "x@y.com" "whatever99" =
        Outcome.err ⟨"Invalid login credentials", some 404, some "Not Found", ""⟩ ∧
      login [aliceStored] "a@b.com" "wrongpass9" =
        Outcome.err ⟨"Invalid login credentials", some 404, some "Not Found", ""⟩ := by
  have h := login_unknown_email_wrong_password_indistinguishable
    [aliceStored] "x@y.com" "whatever99" "a@b.com" "wrongpass9" aliceStored
    (by decide) (by decide) (by decide) (by decide) (by decide) (by decide) (by decide)
  exact ⟨by decide, by decide, by decide, by decide, by decide, h.1, h.2⟩

theorem userSave_error_preserves_db (salt2 : Nat) (newId : String) (now : Int)
    (db : List StoredUser) (doc : NewUserDoc) (e : JsError)
    (db' : List StoredUser)
    (h : userSave salt2 newId now db doc = (.error e, db')) : db' = db := by
  simp only [userSave] at h
  repeat' split at h <;> simp_all

theorem register_error_preserves_db (env : RegEnv) (db : List StoredUser)
    (username email password : String) (out : JsError) (db' : List StoredUser)
    (h : register env db username email password = (Outcome.err out, db')) :
    db' = db := by
  simp only [register] at h
  repeat' split at h <;> simp_all
  rename_i saveEq
  have hdb := userSave_error_preserves_db _ _ _ _ _ _ _ saveEq
  simp_all

/-- C6: a valid registration whose email already matches a persisted record
fails with the Conflict error (message User with this email already exists,
code 400) regardless of the username, persisting nothing; and every register
failure — validation or conflict — leaves the credential store unchanged. -/
theorem register_duplicate_email_conflict_store_unchanged
    (env : RegEnv) (db : List StoredUser) (username email password : String)
    (u : StoredUser) (env2 : RegEnv) (db2 : List StoredUser)
    (u2 e2 p2 : String) (out : JsError) (db2' : List StoredUser)
    (hu : ¬ (sanitizeString username = "" ∨ jsTrim (sanitizeString username) = ""))
    (he : isValidEmail (sanitizeString email) = true)
    (hp : ¬ (sanitizeString password = "" ∨ (sanitizeString password).length < 8))
    (hdup : db.find? (fun x => x.email == sanitizeString email) = some u)
    (hfail : register env2 db2 u2 e2 p2 = (Outcome.err out, db2')) :
    register env db username email password =
        (Outcome.err ⟨"User with this email already exists", some 400,
          some "Bad Request", ""⟩, db) ∧
      db2' = db2 := by
  have hne := valid_email_not_blank _ he
  refine ⟨?_, register_error_preserves_db _ _ _ _ _ _ _ hfail⟩
  simp only [register, if_neg hu, if_neg hne, he, not_true_eq_false, if_neg hp,
    hdup, Option.isSome_some, if_true, if_false]
  simp [registerCatch, alreadyFormatted]

/-- C6 witness: a duplicate-email registration against a one-user store hits
the Conflict error with the store unchanged, and a failing registration (a
short password) also leaves its store unchanged. -/
theorem register_duplicate_email_witness :
    isValidEmail (sanitizeString "a@b.com") = true ∧
      [aliceStored].find? (fun x => x.email == sanitizeString "a@b.com") =
        some aliceStored ∧
      register ⟨5, 6, "u5", 300⟩ [] "carol_7" "c@d.com" "short" =
        (Outcome.err ⟨"Password must be at least 8 characters long", some 400,
          some "Bad Request", ""⟩, []) ∧
      register ⟨5, 6, "u5", 300⟩ [aliceStored] "someone_else" "a@b.com" "longpass3" =
        (Outcome.err ⟨"User with this email already exists", some 400,
          some "Bad Request", ""⟩, [aliceStored]) := by
  have h := register_duplicate_email_conflict_store_unchanged
    ⟨5, 6, "u5", 300⟩ [aliceStored] "someone_else" "a@b.com" "longpass3"
    aliceStored ⟨5, 6, "u5", 300⟩ [] "carol_7" "c@d.com" "short"
    ⟨"Password must be at least 8 characters long", some 400, some "Bad Request", ""⟩
    [] (by decide) (by decide) (by decide) (by decide) (by decide)
  exact ⟨by decide, by decide, by decide, h.1⟩

theorem userSave_ok (salt2 : Nat) (newId : String) (now : Int)
    (db : List StoredUser) (doc : NewUserDoc) (saved : StoredUser)
    (db2 : List StoredUser)
    (h : userSave salt2 newId now db doc = (.ok saved, db2)) :
    saved = ⟨newId, jsTrim doc.username, jsTrim (jsToLower doc.email),
        BcryptStr.hash salt2 doc.password, now, now⟩ ∧
      db2 = db ++ [saved] := by
  simp only [userSave] at h
  repeat' split at h
  all_goals injection h with h1 h2
  all_goals try exact Except.noConfusion h1
  injection h1 with hv
  subst hv
  subst h2
  exact ⟨rfl, rfl⟩

/-- C7: whenever `register` succeeds, the returned value is exactly the
public view — id, username, email, createdAt, updatedAt, no password hash in
the type — and the returned email is the lowercased, trimmed form of the
submitted (sanitized) email, whatever case or surrounding whitespace the
input carried. -/
theorem register_success_returns_public_normalized_view
    (env : RegEnv) (db : List StoredUser) (username email password : String)
    (pub : PublicUser) (db' : List StoredUser)
    (h : register env db username email password = (Outcome.ok pub, db')) :
    pub = ⟨env.newId, jsTrim (sanitizeString username),
      jsTrim (jsToLower (sanitizeString email)), env.now, env.now⟩ := by
  simp only [register] at h
  repeat' split at h
  all_goals injection h with h1 h2
  all_goals try exact Outcome.noConfusion h1
  rename_i saved db2 heq
  obtain ⟨hs, hdb⟩ := userSave_ok _ _ _ _ _ _ _ heq
  injection h1 with hv
  subst hv
  subst hs
  rfl

/-- C7 witness: a concrete successful registration with a mixed-case,
whitespace-padded email returns the five-field public view carrying the
lowercased trimmed email. -/
theorem register_public_view_witness :
    register ⟨1, 2, "u7", 7⟩ [] "alice01" " A@B.Com " "longpass1" =
        (Outcome.ok ⟨"u7", "alice01", "a@b.com", 7, 7⟩,
          [⟨"u7", "alice01", "a@b.com",
            BcryptStr.hash 2 (BcryptStr.hash 1 (BcryptStr.raw "longpass1")), 7, 7⟩]) ∧
      (⟨"u7", "alice01", "a@b.com", 7, 7⟩ : PublicUser) =
        ⟨"u7", jsTrim (sanitizeString "alice01"),
          jsTrim (jsToLower (sanitizeString " A@B.Com ")), 7, 7⟩ := by
  refine ⟨by decide, ?_⟩
  exact register_success_returns_public_normalized_view ⟨1, 2, "u7", 7⟩ []
    "alice01" " A@B.Com " "longpass1" ⟨"u7", "alice01", "a@b.com", 7, 7⟩
    [⟨"u7", "alice01", "a@b.com",
      BcryptStr.hash 2 (BcryptStr.hash 1 (BcryptStr.raw "longpass1")), 7, 7⟩]
    (by decide)

theorem jsSplitChar_not_mem (sep : Char) (cs : List Char) (h : sep ∉ cs) :
    jsSplitChar sep cs = [cs] := by
  induction cs with
  | nil => rfl
  | cons c rest ih =>
      have hc : ¬ (c = sep) := fun hcc => h (hcc ▸ List.mem_cons_self c rest)
      have hr : sep ∉ rest := fun hm => h (List.mem_cons_of_mem _ hm)
      simp only [jsSplitChar, if_neg hc, ih hr]

theorem jsSplitChar_single_sep (sep : Char) (pre post : List Char)
    (hpre : sep ∉ pre) (hpost : sep ∉ post) :
    jsSplitChar sep (pre ++ sep :: post) = [pre, post] := by
  induction pre with
  | nil =>
      simp [jsSplitChar, jsSplitChar_not_mem sep post hpost]
  | cons c rest ih =>
      have hc : ¬ (c = sep) := fun hcc => hpre (hcc ▸ List.mem_cons_self c rest)
      have hr : sep ∉ rest := fun hm => hpre (List.mem_cons_of_mem _ hm)
      simp [jsSplitChar, hc, ih hr]

/-- C8: a request presenting a well-signed token whose embedded expiry is not
in the future (including one issued with ttl 0) is rejected by the
authorization gate with the 401 token-expired response, and the downstream
handler is never invoked. -/
theorem expired_token_rejected_401
    (decode : String → Option JwtPayload) (now : Nat) (users : List StoredUser)
    (tok : String) (p : JwtPayload)
    (hsp : ' ' ∉ tok.data) (hne : jsTrimList tok.data ≠ [])
    (hdec : decode tok = some p) (hexp : p.exp ≤ now) :
    authenticate decode now users (some ("Bearer " ++ tok)) =
      AuthResult.reject ⟨"Authentication failed: Token Expired", some 401,
        some "Unauthorized", ""⟩ := by
  have hdata : ("Bearer " ++ tok).data = "Bearer".data ++ ' ' :: tok.data := by
    rw [String.data_append]
    rfl
  have hsplit : jsSplitChar ' ' ("Bearer " ++ tok).data =
      ["Bearer".data, tok.data] := by
    rw [hdata]
    exact jsSplitChar_single_sep ' ' "Bearer".data tok.data (by decide) hsp
  have htok : ¬ (tok = "" ∨ jsTrim tok = "") := by
    rintro (rfl | htrim)
    · exact hne rfl
    · exact hne ((mk_eq_empty_iff _).mp htrim)
  simp only [authenticate, hsplit, List.map_cons, List.map_nil, mk_data,
    if_neg htok, jwtVerify, hdec, if_pos hexp]
  simp [authCatch]

/-- C8 witness: a concrete well-signed token whose expiry equals the clock is
rejected with the token-expired 401. -/
theorem expired_token_witness :
    (' ' ∉ "aa.bb.cc".data) ∧ jsTrimList "aa.bb.cc".data ≠ [] ∧
      (fun t => if t = "aa.bb.cc" then some (⟨some "u1", "a@b.com", 5⟩ : JwtPayload)
        else none) "aa.bb.cc" = some ⟨some "u1", "a@b.com", 5⟩ ∧
      authenticate
          (fun t => if t = "aa.bb.cc" then some ⟨some "u1", "a@b.com", 5⟩ else none)
          5 [aliceStored] (some ("Bearer " ++ "aa.bb.cc")) =
        AuthResult.reject ⟨"Authentication failed: Token Expired", some 401,
          some "Unauthorized", ""⟩ := by
  refine ⟨by decide, by decide, by decide, ?_⟩
  exact expired_token_rejected_401
    (fun t => if t = "aa.bb.cc" then some ⟨some "u1", "a@b.com", 5⟩ else none)
    5 [aliceStored] "aa.bb.cc" ⟨some "u1", "a@b.com", 5⟩
    (by decide) (by decide) (by decide) (by decide)

end FitTrack
